import Mathlib

/-!
Shallow embedding of the scoring engine of the Fundraising-BOT repository
(src/main.py). Python strings are modelled as Lean `String` / `List Char`;
Python `str.lower` as a per-character lowercase map; the Python `in`
substring test as `containsSub`; machine floats as `ℚ`; Python ints as `ℤ`.
The regular-expression engine (`re.findall`) is an external collaborator and
is modelled as an oracle parameter of type `String → List Char → List (List Char)`
(pattern, text ↦ list of matches).
-/

/-- Python str.lower, modelled per character (the phrases of all lexicons
are ASCII, where the two notions agree). -/
def lowerChars (s : List Char) : List Char := s.map Char.toLower

/-- Tests whether the first list is an initial segment of the second. -/
def startsWithChars : List Char → List Char → Bool
  | [], _ => true
  | _ :: _, [] => false
  | a :: xs, b :: ys => a == b && startsWithChars xs ys

/-- The Python substring test `needle in hay`. -/
def containsSub (needle : List Char) : List Char → Bool
  | [] => startsWithChars needle []
  | c :: rest => startsWithChars needle (c :: rest) || containsSub needle rest

/-- src/main.py lines 976-981: the high_risk entry of scam_indicators. -/
def scam_high_risk : List String :=
  ["guaranteed profit", "risk-free", "100% safe", "get rich quick",
   "urgent", "limited time", "exclusive opportunity", "secret method",
   "financial freedom", "millionaire", "lamborghini", "to the moon",
   "pump", "dump", "shill", "exit scam", "rug pull"]

/-- src/main.py lines 982-986: the medium_risk entry of scam_indicators. -/
def scam_medium_risk : List String :=
  ["investment opportunity", "high returns", "passive income",
   "early investor", "presale", "private sale", "airdrop",
   "referral bonus", "pyramid", "matrix", "doubler"]

/-- src/main.py lines 987-990: the suspicious_patterns entry (regex sources). -/
def scam_suspicious_patterns : List String :=
  ["\\d+x profit", "\\d+% return", "\\$\\d+k per", "only \\d+ spots",
   "invest \\$\\d+ get \\$\\d+", "\\d+ btc", "\\d+ eth"]

/-- src/main.py lines 995-1000: the positive entry of legitimacy_indicators. -/
def legit_positive : List String :=
  ["whitepaper", "roadmap", "github", "audit", "doxxed team",
   "partnership", "testnet", "mainnet", "smart contract",
   "open source", "decentralized", "community driven",
   "development update", "milestone", "alpha", "beta"]

/-- src/main.py lines 1001-1004: the team_indicators entry. -/
def legit_team_indicators : List String :=
  ["founder", "ceo", "cto", "developer", "advisor",
   "team member", "linkedin", "experience", "background"]

/-- src/main.py lines 1005-1008: the tech_indicators entry. -/
def legit_tech_indicators : List String :=
  ["consensus", "validator", "node", "blockchain", "protocol",
   "algorithm", "cryptography", "security", "scalability"]

def hrTag : String := "HIGH RISK: "

def mrTag : String := "MEDIUM RISK: "

def spTag : String := "SUSPICIOUS PATTERN: "

def hypeIndicator : String := "EXCESSIVE HYPE EMOJIS"

def linksIndicator : String := "MULTIPLE SUSPICIOUS LINKS"

def hypeEmojiPattern : String := "[🚀💰💎🔥⚡]"

def tmeLinkPattern : String := "t\\.me/[a-zA-Z0-9_]+"

def telegramMeStr : String := "telegram.me"

def tMeStr : String := "t.me"

/-- src/main.py lines 1237-1268 (ProjectAnalyzer.detect_scam_indicators).
The regex collaborator is the oracle parameter `re`. -/
def detect_scam_indicators (re : String → List Char → List (List Char))
    (text : List Char) : List String :=
  let text_lower := lowerChars text
  let hi := (scam_high_risk.filter (fun i => containsSub i.data text_lower)).map
    (fun i => hrTag ++ i)
  let med := (scam_medium_risk.filter (fun i => containsSub i.data text_lower)).map
    (fun i => mrTag ++ i)
  let pats := scam_suspicious_patterns.flatMap
    (fun pattern => (re pattern text_lower).map (fun m => spTag ++ String.mk m))
  let hype := if (re hypeEmojiPattern text).length > 10 then [hypeIndicator] else []
  let links :=
    if containsSub telegramMeStr.data text_lower || containsSub tMeStr.data text_lower then
      (if (re tmeLinkPattern text_lower).length > 3 then [linksIndicator] else [])
    else []
  hi ++ med ++ pats ++ hype ++ links

def posTag : String := "POSITIVE: "

def teamTag : String := "TEAM: "

def techTag : String := "TECHNICAL: "

def ghIndicator : String := "GITHUB REPOSITORY"

def auditIndicator : String := "SECURITY AUDIT"

def docIndicator : String := "DOCUMENTATION"

def githubComStr : String := "github.com"

def auditWords : List String := ["audit", "certik", "peckshield"]

def whitepaperStr : String := "whitepaper"

def litePaperStr : String := "lite paper"

/-- src/main.py lines 1270-1300 (ProjectAnalyzer.detect_positive_indicators). -/
def detect_positive_indicators (text : List Char) : List String :=
  let text_lower := lowerChars text
  let pos := (legit_positive.filter (fun i => containsSub i.data text_lower)).map
    (fun i => posTag ++ i)
  let team := (legit_team_indicators.filter (fun i => containsSub i.data text_lower)).map
    (fun i => teamTag ++ i)
  let tech := (legit_tech_indicators.filter (fun i => containsSub i.data text_lower)).map
    (fun i => techTag ++ i)
  let gh := if containsSub githubComStr.data text_lower then [ghIndicator] else []
  let sec := if auditWords.any (fun w => containsSub w.data text_lower) then
      [auditIndicator] else []
  let doc := if containsSub whitepaperStr.data text_lower ||
      containsSub litePaperStr.data text_lower then [docIndicator] else []
  pos ++ team ++ tech ++ gh ++ sec ++ doc

/-- src/main.py lines 925-937 (dataclass TelegramCommunityInfo); the
creation_date field is represented by the derived age in whole days,
`(datetime.now() - creation_date).days`, the only way the scoring code
reads it. -/
structure TelegramCommunityInfo where
  title : String
  username : String
  member_count : Int
  description : String
  recent_messages : List String
  admin_count : Int
  invite_link : Option String
  category : String
  verified : Bool
  restricted : Bool
  creation_days_old : Option Int
deriving DecidableEq

def hrKey : String := "HIGH RISK"

def mrKey : String := "MEDIUM RISK"

def spKey : String := "SUSPICIOUS PATTERN"

def posKey : String := "POSITIVE"

def teamKey : String := "TEAM"

def techKey : String := "TECHNICAL"

/-- The list comprehension `len([i for i in indicators if key in i])` used
repeatedly in src/main.py lines 1309-1320 and 1346. -/
def count_with_key (key : String) (indicators : List String) : Nat :=
  (indicators.filter (fun i => containsSub key.data i.data)).length

/-- src/main.py lines 1302-1342 (ProjectAnalyzer.calculate_legitimacy_score). -/
def calculate_legitimacy_score (scam_indicators positive_indicators : List String)
    (community_info : TelegramCommunityInfo) : ℚ :=
  let high_risk_count := count_with_key hrKey scam_indicators
  let medium_risk_count := count_with_key mrKey scam_indicators
  let suspicious_patterns := count_with_key spKey scam_indicators
  let positive_count := count_with_key posKey positive_indicators
  let team_count := count_with_key teamKey positive_indicators
  let tech_count := count_with_key techKey positive_indicators
  let base_score : ℚ := 50
  let base_score := base_score - high_risk_count * 20 - medium_risk_count * 10
    - suspicious_patterns * 5
  let base_score := base_score + positive_count * 8 + team_count * 12 + tech_count * 10
  let base_score := if community_info.admin_count > 1 then base_score + 5 else base_score
  let base_score := if community_info.verified then base_score + 15 else base_score
  let base_score := if community_info.restricted then base_score - 10 else base_score
  let base_score :=
    match community_info.creation_days_old with
    | some days_old =>
        if days_old > 30 then base_score + min 10 ((days_old : ℚ) / 10) else base_score
    | none => base_score
  max 0 (min 100 base_score)

/-- src/main.py lines 1-5 (enum ScamRisk). -/
inductive ScamRisk where
  | LOW
  | MEDIUM
  | HIGH
  | CRITICAL
deriving DecidableEq

/-- src/main.py lines 1344-1355 (ProjectAnalyzer.determine_risk_level). -/
def determine_risk_level (legitimacy_score : ℚ) (scam_indicators : List String) : ScamRisk :=
  let high_risk_count := count_with_key hrKey scam_indicators
  if high_risk_count > 0 ∨ legitimacy_score < 20 then ScamRisk.CRITICAL
  else if legitimacy_score < 40 then ScamRisk.HIGH
  else if legitimacy_score < 60 then ScamRisk.MEDIUM
  else ScamRisk.LOW

/-- The composition performed by ProjectAnalyzer.analyze_project
(src/main.py lines 1199-1235) restricted to the risk classification:
detect indicators, score, then classify. -/
def analyze_risk_level (re : String → List Char → List (List Char))
    (text : List Char) (community_info : TelegramCommunityInfo) : ScamRisk :=
  let scam_indicators := detect_scam_indicators re text
  let positive_indicators := detect_positive_indicators text
  let legitimacy_score :=
    calculate_legitimacy_score scam_indicators positive_indicators community_info
  determine_risk_level legitimacy_score scam_indicators

theorem startsWithChars_append (xs ys : List Char) :
    startsWithChars xs (xs ++ ys) = true := by
  induction xs with
  | nil => rfl
  | cons a tl ih => simp [startsWithChars, ih]

theorem containsSub_of_startsWith {n h : List Char}
    (hs : startsWithChars n h = true) : containsSub n h = true := by
  cases h with
  | nil => simpa [containsSub] using hs
  | cons c rest => simp [containsSub, hs]

def colonSpace : String := ": "

theorem count_with_key_pos {key : String} {indicators : List String} {x : String}
    (hx : x ∈ indicators) (hk : containsSub key.data x.data = true) :
    0 < count_with_key key indicators := by
  unfold count_with_key
  exact List.length_pos.mpr (List.ne_nil_of_mem (List.mem_filter.mpr ⟨hx, hk⟩))

/-- C1: a text whose lowercase form contains a configured high-risk phrase is
always classified CRITICAL, for every regex oracle, every community metadata
record, and every numeric legitimacy score. -/
theorem risk_critical_override (re : String → List Char → List (List Char))
    (text : List Char) (info : TelegramCommunityInfo) (p : String)
    (hp : p ∈ scam_high_risk)
    (hc : containsSub p.data (lowerChars text) = true) :
    (∀ score : ℚ, determine_risk_level score (detect_scam_indicators re text)
        = ScamRisk.CRITICAL) ∧
    analyze_risk_level re text info = ScamRisk.CRITICAL := by
  have hmem : hrTag ++ p ∈ detect_scam_indicators re text := by
    unfold detect_scam_indicators
    simp only [List.mem_append, List.mem_map, List.mem_filter]
    exact Or.inl (Or.inl (Or.inl (Or.inl ⟨p, ⟨hp, hc⟩, rfl⟩)))
  have hpred : containsSub hrKey.data (hrTag ++ p).data = true := by
    apply containsSub_of_startsWith
    have hdata : (hrTag ++ p).data = hrKey.data ++ (colonSpace.data ++ p.data) := by
      rw [String.data_append, ← List.append_assoc]
      congr 1
    rw [hdata]
    exact startsWithChars_append _ _
  have hcount : 0 < count_with_key hrKey (detect_scam_indicators re text) :=
    count_with_key_pos hmem hpred
  constructor
  · intro score
    unfold determine_risk_level
    rw [if_pos (Or.inl hcount)]
  · unfold analyze_risk_level determine_risk_level
    rw [if_pos (Or.inl hcount)]

/-- A regex oracle returning no matches anywhere (honest on empty text). -/
def reNull : String → List Char → List (List Char) := fun _ _ => []

/-- A community record with all-default metrics. -/
def emptyCommunityInfo : TelegramCommunityInfo :=
  { title := "", username := "", member_count := 0, description := "",
    recent_messages := [], admin_count := 0, invite_link := none,
    category := "", verified := false, restricted := false,
    creation_days_old := none }

def witnessText : List Char := ("Urgent news for the community").data

/-- Witness for C1 at a concrete text containing the high-risk phrase. -/
theorem risk_critical_override_witness :
    analyze_risk_level reNull witnessText emptyCommunityInfo = ScamRisk.CRITICAL :=
  (risk_critical_override reNull witnessText emptyCommunityInfo ("urgent")
    (by decide) (by decide)).2

/-- C3 counterexample: on the empty text with all-default metrics the
engine scores exactly the base 50, and that score falls in the MEDIUM band
of determine_risk_level, not the least severe tier LOW. -/
theorem empty_input_risk_not_low :
    calculate_legitimacy_score (detect_scam_indicators reNull [])
      (detect_positive_indicators []) emptyCommunityInfo = 50 ∧
    determine_risk_level
      (calculate_legitimacy_score (detect_scam_indicators reNull [])
        (detect_positive_indicators []) emptyCommunityInfo)
      (detect_scam_indicators reNull []) = ScamRisk.MEDIUM ∧
    ScamRisk.MEDIUM ≠ ScamRisk.LOW := by
  have h1 : detect_scam_indicators reNull [] = [] := by decide
  have h2 : detect_positive_indicators [] = [] := by decide
  have h3 : calculate_legitimacy_score [] [] emptyCommunityInfo = 50 := by
    simp [calculate_legitimacy_score, count_with_key, emptyCommunityInfo]
    norm_num [min_def, max_def]
  have h4 : determine_risk_level 50 [] = ScamRisk.MEDIUM := by
    simp [determine_risk_level, count_with_key]
    norm_num
  refine ⟨?_, ?_, by decide⟩
  · rw [h1, h2]
    exact h3
  · rw [h1, h2, h3]
    exact h4

/-- C3 (amended): for every regex oracle that is honest on the empty text
and every community record with default metrics, the empty text yields no
indicators, exactly the base score 50, and risk tier MEDIUM (the 40-60
band of determine_risk_level), not LOW. -/
theorem empty_input_base_score (re : String → List Char → List (List Char))
    (hre : ∀ pat, re pat [] = []) (info : TelegramCommunityInfo)
    (ha : info.admin_count = 0) (hv : info.verified = false)
    (hr : info.restricted = false) (hd : info.creation_days_old = none) :
    detect_scam_indicators re [] = [] ∧
    detect_positive_indicators [] = [] ∧
    calculate_legitimacy_score (detect_scam_indicators re [])
      (detect_positive_indicators []) info = 50 ∧
    determine_risk_level
      (calculate_legitimacy_score (detect_scam_indicators re [])
        (detect_positive_indicators []) info)
      (detect_scam_indicators re []) = ScamRisk.MEDIUM := by
  have h1 : detect_scam_indicators re [] = [] := by
    unfold detect_scam_indicators
    simp only [lowerChars, List.map_nil, hre]
    decide
  have h2 : detect_positive_indicators [] = [] := by decide
  have h3 : calculate_legitimacy_score [] [] info = 50 := by
    simp [calculate_legitimacy_score, count_with_key, ha, hv, hr, hd]
    norm_num [min_def, max_def]
  have h4 : determine_risk_level 50 [] = ScamRisk.MEDIUM := by
    simp [determine_risk_level, count_with_key]
    norm_num
  refine ⟨h1, h2, ?_, ?_⟩
  · rw [h1, h2]
    exact h3
  · rw [h1, h2, h3]
    exact h4

/-- Witness for the amended C3 at the all-default community record. -/
theorem empty_input_base_score_witness :
    calculate_legitimacy_score (detect_scam_indicators reNull [])
      (detect_positive_indicators []) emptyCommunityInfo = 50 :=
  (empty_input_base_score reNull (fun _ => rfl) emptyCommunityInfo
    rfl rfl rfl rfl).2.2.1

/-- The social_analysis dict built by ProjectResearcher.analyze_social_presence
(src/main.py lines 236-269), with the nested platform dicts flattened to the
fields the scoring code reads. -/
structure SocialAnalysis where
  twitter_present : Bool
  twitter_followers : Int
  telegram_present : Bool
  telegram_members : Int
  discord_present : Bool
  discord_members : Int
  overall_score : Int
  missing_platforms : List String
deriving DecidableEq

/-- src/main.py lines 293-323 (ProjectResearcher.calculate_social_media_score). -/
def calculate_social_media_score (social_analysis : SocialAnalysis) : Int :=
  let score : Int := 0
  let score := if social_analysis.twitter_present then
      score + 30 + (if social_analysis.twitter_followers > 10000 then 20
        else if social_analysis.twitter_followers > 1000 then 10 else 0)
    else score
  let score := if social_analysis.telegram_present then
      score + 25 + (if social_analysis.telegram_members > 5000 then 15
        else if social_analysis.telegram_members > 1000 then 8 else 0)
    else score
  let score := if social_analysis.discord_present then score + 25 else score
  let score := score - (social_analysis.missing_platforms.length : Int) * 15
  max 0 (min 100 score)

/-- The technical_analysis dict built by analyze_technical_aspects
(src/main.py lines 343-375), flattened to the fields the scoring code reads. -/
structure TechnicalAnalysis where
  github_present : Bool
  whitepaper_present : Bool
  contracts_deployed : Bool
  contracts_audited : Bool
  technical_score : Int
  missing_elements : List String
deriving DecidableEq

/-- src/main.py lines 398-415 (ProjectResearcher.calculate_technical_score). -/
def calculate_technical_score (technical_analysis : TechnicalAnalysis) : Int :=
  let score : Int := 0
  let score := if technical_analysis.github_present then score + 40 else score
  let score := if technical_analysis.whitepaper_present then score + 30 else score
  let score := if technical_analysis.contracts_deployed then score + 20 else score
  let score := if technical_analysis.contracts_audited then score + 10 else score
  let score := score - (technical_analysis.missing_elements.length : Int) * 20
  max 0 (min 100 score)

/-- The team_analysis dict built by analyze_team (src/main.py lines 432-466). -/
structure TeamAnalysis where
  transparency : String
  linkedin_profiles : Int
  public_backgrounds : Int
  team_score : Int
  missing_elements : List String
deriving DecidableEq

/-- src/main.py lines 468-484 (ProjectResearcher.calculate_team_score).
The clamp is one-sided: `min(100, score)`. -/
def calculate_team_score (team_analysis : TeamAnalysis) : Int :=
  let score : Int := 0
  let score := if team_analysis.transparency = "high" then score + 50
    else if team_analysis.transparency = "medium" then score + 30
    else if team_analysis.transparency = "low" then score + 10
    else score
  let score := score + team_analysis.linkedin_profiles * 10
  let score := score + team_analysis.public_backgrounds * 5
  min 100 score

/-- The tokenomics_analysis dict built by analyze_tokenomics_deep
(src/main.py lines 530-567). -/
structure TokenomicsAnalysis where
  burn_mechanism : Bool
  staking : Bool
  governance : Bool
  tokenomics_score : Int
  red_flags : List String
  positive_aspects : List String
deriving DecidableEq

/-- src/main.py lines 569-579 (ProjectResearcher.calculate_tokenomics_score). -/
def calculate_tokenomics_score (tokenomics_analysis : TokenomicsAnalysis) : Int :=
  let score : Int := 50
  let score := score + (tokenomics_analysis.positive_aspects.length : Int) * 15
  let score := score - (tokenomics_analysis.red_flags.length : Int) * 25
  max 0 (min 100 score)

/-- The community_analysis dict built by analyze_community_health
(src/main.py lines 500-519). -/
structure CommunityAnalysis where
  community_sentiment : String
  community_score : Int
  issues : List String
deriving DecidableEq

/-- src/main.py lines 521-524 (ProjectResearcher.calculate_community_score):
the placeholder always returns the neutral 50. -/
def calculate_community_score (community_analysis : CommunityAnalysis) : Int := 50

/-- C2: every dimension score and the overall legitimacy score are clamped
to [0, 100]; calculate_team_score is clamped only from above, and is
non-negative whenever the linkedin_profiles and public_backgrounds counts
are non-negative. -/
theorem scores_within_range (sa : SocialAnalysis) (ta : TechnicalAnalysis)
    (ka : TokenomicsAnalysis) (ca : CommunityAnalysis) (ma : TeamAnalysis)
    (scam_indicators positive_indicators : List String)
    (info : TelegramCommunityInfo) :
    (0 ≤ calculate_social_media_score sa ∧ calculate_social_media_score sa ≤ 100) ∧
    (0 ≤ calculate_technical_score ta ∧ calculate_technical_score ta ≤ 100) ∧
    (0 ≤ calculate_tokenomics_score ka ∧ calculate_tokenomics_score ka ≤ 100) ∧
    (0 ≤ calculate_community_score ca ∧ calculate_community_score ca ≤ 100) ∧
    (0 ≤ calculate_legitimacy_score scam_indicators positive_indicators info ∧
      calculate_legitimacy_score scam_indicators positive_indicators info ≤ 100) ∧
    calculate_team_score ma ≤ 100 ∧
    (0 ≤ ma.linkedin_profiles → 0 ≤ ma.public_backgrounds →
      0 ≤ calculate_team_score ma) := by
  refine ⟨⟨le_max_left _ _, ?_⟩, ⟨le_max_left _ _, ?_⟩, ⟨le_max_left _ _, ?_⟩,
    ⟨by norm_num [calculate_community_score], by norm_num [calculate_community_score]⟩,
    ⟨le_max_left _ _, ?_⟩, min_le_left _ _, ?_⟩
  · exact max_le (by norm_num) (min_le_left _ _)
  · exact max_le (by norm_num) (min_le_left _ _)
  · exact max_le (by norm_num) (min_le_left _ _)
  · exact max_le (by norm_num) (min_le_left _ _)
  · intro hl hp
    unfold calculate_team_score
    refine le_min (by norm_num) ?_
    split_ifs <;> nlinarith

def sampleSocial : SocialAnalysis :=
  { twitter_present := true, twitter_followers := 1500, telegram_present := false,
    telegram_members := 0, discord_present := false, discord_members := 0,
    overall_score := 0, missing_platforms := ["telegram", "discord"] }

def sampleTechnical : TechnicalAnalysis :=
  { github_present := false, whitepaper_present := false, contracts_deployed := false,
    contracts_audited := false, technical_score := 0,
    missing_elements := ["github_repository", "whitepaper"] }

def sampleTokenomics : TokenomicsAnalysis :=
  { burn_mechanism := true, staking := false, governance := false,
    tokenomics_score := 0, red_flags := [], positive_aspects := ["burn_mechanism"] }

def sampleCommunity : CommunityAnalysis :=
  { community_sentiment := "neutral", community_score := 0, issues := [] }

def sampleTeam : TeamAnalysis :=
  { transparency := "medium", linkedin_profiles := 2, public_backgrounds := 1,
    team_score := 0, missing_elements := [] }

/-- Witness for C2 at concrete analysis records with non-negative counts. -/
theorem scores_within_range_witness :
    0 ≤ calculate_team_score sampleTeam ∧ calculate_team_score sampleTeam ≤ 100 :=
  ⟨(scores_within_range sampleSocial sampleTechnical sampleTokenomics sampleCommunity
      sampleTeam [] [] emptyCommunityInfo).2.2.2.2.2.2
      (by norm_num [sampleTeam]) (by norm_num [sampleTeam]),
   (scores_within_range sampleSocial sampleTechnical sampleTokenomics sampleCommunity
      sampleTeam [] [] emptyCommunityInfo).2.2.2.2.2.1⟩

/-- src/main.py lines 879-891 (enum JobCategory). -/
inductive JobCategory where
  | COMMUNITY_MANAGEMENT
  | MODERATION
  | GRAPHICS_DESIGN
  | SOCIAL_MEDIA
  | PR_MARKETING
  | BUSINESS_DEVELOPMENT
  | TECHNICAL_WRITING
  | DEVELOPMENT
  | LEGAL_COMPLIANCE
  | PARTNERSHIPS
  | CONTENT_CREATION
  | INFLUENCER_OUTREACH
deriving DecidableEq

/-- The .value string of each JobCategory member. -/
def category_value : JobCategory → String
  | JobCategory.COMMUNITY_MANAGEMENT => "community_management"
  | JobCategory.MODERATION => "moderation"
  | JobCategory.GRAPHICS_DESIGN => "graphics_design"
  | JobCategory.SOCIAL_MEDIA => "social_media"
  | JobCategory.PR_MARKETING => "pr_marketing"
  | JobCategory.BUSINESS_DEVELOPMENT => "business_development"
  | JobCategory.TECHNICAL_WRITING => "technical_writing"
  | JobCategory.DEVELOPMENT => "development"
  | JobCategory.LEGAL_COMPLIANCE => "legal_compliance"
  | JobCategory.PARTNERSHIPS => "partnerships"
  | JobCategory.CONTENT_CREATION => "content_creation"
  | JobCategory.INFLUENCER_OUTREACH => "influencer_outreach"

/-- src/main.py lines 893-901 (dataclass JobOpportunity). -/
structure JobOpportunity where
  category : JobCategory
  urgency : String
  description : String
  requirements : List String
  pitch_strategy : String
  estimated_budget : String
  time_commitment : String
deriving DecidableEq

/-- One entry of the pitch_strategies table (src/main.py lines 44-75). -/
structure PitchStrategy where
  strategy : String
  approach : String
  key_points : List String
deriving DecidableEq

/-- The apostrophe character, kept out of the literals. -/
def apos : String := String.singleton (Char.ofNat 39)

/-- src/main.py lines 44-75 (ProjectResearcher.pitch_strategies): a table
with exactly six populated categories; lookups with a default (lines 640 and
649) receive none for the other six. -/
def pitch_strategies : JobCategory → Option PitchStrategy
  | JobCategory.COMMUNITY_MANAGEMENT => some
      { strategy := "Focus on engagement metrics and community building experience",
        approach := "Show examples of communities you" ++ apos ++
          "ve grown and engagement strategies",
        key_points := ["Community growth track record", "Engagement strategies",
          "Crisis management", "Event organization"] }
  | JobCategory.MODERATION => some
      { strategy := "Emphasize reliability, availability, and conflict resolution skills",
        approach := "Highlight your availability across time zones and moderation tools experience",
        key_points := ["24/7 availability", "Moderation tools expertise",
          "Conflict resolution", "Rule enforcement"] }
  | JobCategory.GRAPHICS_DESIGN => some
      { strategy := "Lead with a strong portfolio showcasing crypto/web3 design experience",
        approach := "Create sample designs specifically for their project before pitching",
        key_points := ["Crypto design portfolio", "Brand consistency",
          "Quick turnaround", "Multiple format delivery"] }
  | JobCategory.SOCIAL_MEDIA => some
      { strategy := "Present a content strategy with growth projections and engagement tactics",
        approach := "Analyze their current social media and propose specific improvements",
        key_points := ["Content strategy", "Growth tactics", "Platform expertise",
          "Analytics tracking"] }
  | JobCategory.PR_MARKETING => some
      { strategy := "Demonstrate media connections and successful campaign examples",
        approach := "Propose specific PR opportunities and media outreach strategy",
        key_points := ["Media relationships", "Campaign success stories",
          "Industry knowledge", "Crisis communication"] }
  | JobCategory.BUSINESS_DEVELOPMENT => some
      { strategy := "Showcase network connections and partnership facilitation experience",
        approach := "Identify potential partnerships and present strategic opportunities",
        key_points := ["Network connections", "Deal-making experience",
          "Market insights", "Strategic thinking"] }
  | _ => none

/-- src/main.py lines 734-761 (ProjectResearcher.format_pitch_strategy);
the source builds the template with an f-string and strips the surrounding
whitespace, reproduced here by direct concatenation. -/
def format_pitch_strategy (strategy_dict : Option PitchStrategy)
    (category : JobCategory) : String :=
  match strategy_dict with
  | none => "Research the project thoroughly and propose specific improvements in your area of expertise."
  | some sd =>
      "**Pitch Strategy:** " ++ sd.strategy ++ "\n\n**Approach:** " ++ sd.approach ++
      "\n\n**Key Points to Highlight:**\n" ++
      String.intercalate ("\n") (sd.key_points.map (fun point => "• " ++ point)) ++
      "\n\n**Pitch Template:**\n\"Hi [Project Name] team! I" ++ apos ++
      "ve been following your project and see great potential. I noticed you could benefit from " ++
      String.replace (category_value category) ("_") (" ") ++
      " support. Here" ++ apos ++ "s how I can help:\n\n" ++
      "[Specific examples of what you can deliver]\n[Your relevant experience/portfolio]\n" ++
      "[Proposed timeline and deliverables]\n\nI" ++ apos ++
      "d love to discuss how we can grow [Project Name] together. " ++
      "When would be a good time for a brief call?\""

/-- src/main.py lines 720-732 (ProjectResearcher.create_job_opportunity). -/
def create_job_opportunity (category : JobCategory) (urgency description : String)
    (requirements : List String) (pitch_strategy : Option PitchStrategy)
    (estimated_budget time_commitment : String) : JobOpportunity :=
  { category := category, urgency := urgency, description := description,
    requirements := requirements,
    pitch_strategy := format_pitch_strategy pitch_strategy category,
    estimated_budget := estimated_budget, time_commitment := time_commitment }

/-- The state of the market_cap entry of basic_info. CoinGecko fills it with
`detail_data.get(...).get('usd')` (src/main.py line 206), which is None when
the coin has no USD market cap, so the entry can be a number, None, or
missing altogether (no market_data in basic_info). -/
inductive MarketCapField where
  | absent
  | null
  | val (q : ℚ)
deriving DecidableEq

/-- src/main.py line 680: `basic_info.get('market_data', {}).get('market_cap', 0)`.
Returns the Python value: 0 when the key chain is missing, None (modelled as
none) when the stored value is None, else the number. -/
def market_cap_lookup : MarketCapField → Option ℚ
  | MarketCapField.absent => some 0
  | MarketCapField.null => none
  | MarketCapField.val q => some q

/-- The basic_info dict assembled by gather_basic_project_info
(src/main.py lines 141-214), restricted to the fields the needs deriver reads. -/
structure BasicInfo where
  name : String
  description : String
  website : String
  market_cap : MarketCapField
deriving DecidableEq

/-- src/main.py lines 763-767 (ProjectResearcher.has_professional_branding):
the simplified check always returns False. -/
def has_professional_branding (basic_info : BasicInfo)
    (social_analysis : SocialAnalysis) : Bool := false

def twitter_opportunity : JobOpportunity :=
  create_job_opportunity JobCategory.SOCIAL_MEDIA ("high")
    ("Twitter account management and content strategy needed")
    ["Social media experience", "Crypto knowledge", "Content creation"]
    (pitch_strategies JobCategory.SOCIAL_MEDIA)
    ("$500-2000/month") ("Part-time (10-20 hrs/week)")

def telegram_opportunity : JobOpportunity :=
  create_job_opportunity JobCategory.COMMUNITY_MANAGEMENT ("high")
    ("Telegram community growth and management needed")
    ["Community building experience", "24/7 availability", "Crypto enthusiasm"]
    (pitch_strategies JobCategory.COMMUNITY_MANAGEMENT)
    ("$800-3000/month") ("Full-time")

def whitepaper_opportunity : JobOpportunity :=
  create_job_opportunity JobCategory.TECHNICAL_WRITING ("high")
    ("Technical writer needed for whitepaper and documentation")
    ["Technical writing experience", "Blockchain knowledge", "Research skills"]
    (pitch_strategies JobCategory.TECHNICAL_WRITING)
    ("$2000-8000 (one-time)") ("Project-based")

def developer_opportunity : JobOpportunity :=
  create_job_opportunity JobCategory.DEVELOPMENT ("medium")
    ("Blockchain developer needed for smart contract development")
    ["Solidity experience", "Smart contract development", "Security knowledge"]
    (pitch_strategies JobCategory.DEVELOPMENT)
    ("$3000-10000/month") ("Full-time")

def pr_opportunity : JobOpportunity :=
  create_job_opportunity JobCategory.PR_MARKETING ("medium")
    ("PR specialist needed to build team credibility and media presence")
    ["PR experience", "Media relationships", "Crisis communication"]
    (pitch_strategies JobCategory.PR_MARKETING)
    ("$1500-5000/month") ("Part-time")

def graphics_opportunity : JobOpportunity :=
  create_job_opportunity JobCategory.GRAPHICS_DESIGN ("medium")
    ("Graphics designer needed for branding and visual content")
    ["Graphic design portfolio", "Crypto/Web3 experience", "Brand development"]
    (pitch_strategies JobCategory.GRAPHICS_DESIGN)
    ("$1000-4000/month") ("Part-time")

def business_dev_opportunity : JobOpportunity :=
  create_job_opportunity JobCategory.BUSINESS_DEVELOPMENT ("medium")
    ("Business development specialist for partnerships and growth")
    ["BD experience", "Crypto industry network", "Deal-making skills"]
    (pitch_strategies JobCategory.BUSINESS_DEVELOPMENT)
    ("$2000-8000/month") ("Part-time to Full-time")

/-- src/main.py lines 903-909 (dataclass ProjectNeeds). -/
structure ProjectNeeds where
  missing_elements : List String
  strengths : List String
  improvement_areas : List String
  job_opportunities : List JobOpportunity
  overall_maturity : String
deriving DecidableEq

/-- src/main.py lines 596-718 (ProjectResearcher.identify_project_needs).
The appends of the Python loop are rendered as concatenation of the
conditional segments in source order. A None market cap makes the Python
comparison on line 681 raise TypeError, modelled by the error branch. -/
def identify_project_needs (basic_info : BasicInfo)
    (social_analysis : SocialAnalysis) (technical_analysis : TechnicalAnalysis)
    (team_analysis : TeamAnalysis) (community_analysis : CommunityAnalysis) :
    Except String ProjectNeeds :=
  let social_low := social_analysis.overall_score < 70
  let missing1 := if social_low then ["strong_social_media_presence"] else []
  let improve1 := if social_low then ["social_media_strategy"] else []
  let jobs1 := if social_low then
      (if social_analysis.missing_platforms.contains ("twitter") then
        [twitter_opportunity] else []) ++
      (if social_analysis.telegram_members < 1000 then [telegram_opportunity] else [])
    else []
  let tech_low := technical_analysis.technical_score < 60
  let missing2 := if tech_low then ["strong_technical_foundation"] else []
  let improve2 := if tech_low then ["technical_documentation"] else []
  let jobs2 := if tech_low then
      (if technical_analysis.missing_elements.contains ("whitepaper") then
        [whitepaper_opportunity] else []) ++
      (if technical_analysis.missing_elements.contains ("github_repository") then
        [developer_opportunity] else [])
    else []
  let team_low := team_analysis.team_score < 50
  let missing3 := if team_low then ["team_transparency"] else []
  let improve3 := if team_low then ["team_credibility"] else []
  let jobs3 := if team_low then [pr_opportunity] else []
  let branding_missing := ! has_professional_branding basic_info social_analysis
  let missing4 := if branding_missing then ["professional_branding"] else []
  let improve4 := if branding_missing then ["visual_identity"] else []
  let jobs4 := if branding_missing then [graphics_opportunity] else []
  match market_cap_lookup basic_info.market_cap with
  | none => Except.error ("TypeError: unorderable types NoneType and int")
  | some market_cap =>
    let bd_low := market_cap < 10000000
    let missing5 := if bd_low then ["strategic_partnerships"] else []
    let improve5 := if bd_low then ["business_development"] else []
    let jobs5 := if bd_low then [business_dev_opportunity] else []
    let strengths :=
      (if social_analysis.overall_score > 70 then ["strong_social_media_presence"] else []) ++
      (if technical_analysis.technical_score > 70 then ["solid_technical_foundation"] else []) ++
      (if team_analysis.team_score > 70 then ["transparent_team"] else [])
    let avg_score : ℚ := ((social_analysis.overall_score +
      technical_analysis.technical_score + team_analysis.team_score : Int) : ℚ) / 3
    let overall_maturity := if avg_score < 40 then ("early")
      else if avg_score < 70 then ("developing") else ("mature")
    Except.ok
      { missing_elements := missing1 ++ missing2 ++ missing3 ++ missing4 ++ missing5,
        strengths := strengths,
        improvement_areas := improve1 ++ improve2 ++ improve3 ++ improve4 ++ improve5,
        job_opportunities := jobs1 ++ jobs2 ++ jobs3 ++ jobs4 ++ jobs5,
        overall_maturity := overall_maturity }

def nullCapBasicInfo : BasicInfo :=
  { name := "proj", description := "", website := "",
    market_cap := MarketCapField.null }

/-- C4 counterexample: with a present-but-null market cap (as produced by
the CoinGecko fetch when no USD market cap exists) the needs deriver does
not degrade to a default value: the comparison on src/main.py line 681
raises a TypeError instead of returning a ProjectNeeds value. -/
theorem null_market_cap_raises :
    identify_project_needs nullCapBasicInfo sampleSocial sampleTechnical
      sampleTeam sampleCommunity =
      Except.error ("TypeError: unorderable types NoneType and int") := rfl

/-- C4 (amended): a missing market cap defaults to 0, and the needs deriver
returns a value for every input whose market-cap entry is not null; only a
present-but-null market cap makes it raise. -/
theorem needs_total_unless_null_cap (b : BasicInfo) (s : SocialAnalysis)
    (t : TechnicalAnalysis) (m : TeamAnalysis) (c : CommunityAnalysis)
    (h : b.market_cap ≠ MarketCapField.null) :
    market_cap_lookup MarketCapField.absent = some 0 ∧
    (identify_project_needs b s t m c).isOk = true := by
  refine ⟨rfl, ?_⟩
  cases hb : b.market_cap with
  | absent =>
      unfold identify_project_needs
      rw [hb]
      rfl
  | null => exact absurd hb h
  | val q =>
      unfold identify_project_needs
      rw [hb]
      rfl

def sampleBasicInfo : BasicInfo :=
  { name := "proj", description := "a token project", website := "",
    market_cap := MarketCapField.val 5000000 }

/-- Witness for the amended C4 at a concrete non-null input. -/
theorem needs_total_unless_null_cap_witness :
    (identify_project_needs sampleBasicInfo sampleSocial sampleTechnical
      sampleTeam sampleCommunity).isOk = true :=
  (needs_total_unless_null_cap sampleBasicInfo sampleSocial sampleTechnical
    sampleTeam sampleCommunity (by decide)).2

/-- The four values the spec names as determining the needs output. -/
def primary_inputs (basic_info : BasicInfo) (social_analysis : SocialAnalysis)
    (technical_analysis : TechnicalAnalysis) (team_analysis : TeamAnalysis) :
    Int × Int × Int × MarketCapField :=
  (social_analysis.overall_score, technical_analysis.technical_score,
    team_analysis.team_score, basic_info.market_cap)

/-- The job-opportunity list of a needs-derivation run (empty on a raise). -/
def job_opportunity_list (basic_info : BasicInfo) (social_analysis : SocialAnalysis)
    (technical_analysis : TechnicalAnalysis) (team_analysis : TeamAnalysis)
    (community_analysis : CommunityAnalysis) : List JobOpportunity :=
  match identify_project_needs basic_info social_analysis technical_analysis
      team_analysis community_analysis with
  | Except.ok p => p.job_opportunities
  | Except.error _ => []

def socialMissingTwitter : SocialAnalysis :=
  { twitter_present := false, twitter_followers := 0, telegram_present := false,
    telegram_members := 0, discord_present := false, discord_members := 0,
    overall_score := 50, missing_platforms := ["twitter"] }

def socialWithTwitter : SocialAnalysis :=
  { twitter_present := true, twitter_followers := 0, telegram_present := false,
    telegram_members := 0, discord_present := false, discord_members := 0,
    overall_score := 50, missing_platforms := [] }

def techStrong : TechnicalAnalysis :=
  { github_present := true, whitepaper_present := true, contracts_deployed := true,
    contracts_audited := true, technical_score := 80, missing_elements := [] }

def teamStrong : TeamAnalysis :=
  { transparency := "high", linkedin_profiles := 3, public_backgrounds := 2,
    team_score := 80, missing_elements := [] }

/-- C5 counterexample: two inputs that agree on the three primary scores and
the market cap but differ in the missing-platforms list produce different
job-opportunity lists, so the output is not a function of those four values. -/
theorem needs_not_determined_by_four_values :
    primary_inputs sampleBasicInfo socialMissingTwitter techStrong teamStrong =
      primary_inputs sampleBasicInfo socialWithTwitter techStrong teamStrong ∧
    job_opportunity_list sampleBasicInfo socialMissingTwitter techStrong teamStrong
        sampleCommunity ≠
      job_opportunity_list sampleBasicInfo socialWithTwitter techStrong teamStrong
        sampleCommunity := by
  refine ⟨rfl, fun h => ?_⟩
  have hA : (job_opportunity_list sampleBasicInfo socialMissingTwitter techStrong
      teamStrong sampleCommunity).length = 4 := rfl
  have hB : (job_opportunity_list sampleBasicInfo socialWithTwitter techStrong
      teamStrong sampleCommunity).length = 3 := rfl
  rw [h, hB] at hA
  exact absurd hA (by decide)

/-- C5 (amended): the needs output is a deterministic function of the full
social, technical, and team analysis records together with the market-cap
field; the rest of basic_info and the whole community analysis are ignored. -/
theorem needs_determined_by_analyses (b1 b2 : BasicInfo) (s : SocialAnalysis)
    (t : TechnicalAnalysis) (m : TeamAnalysis) (c1 c2 : CommunityAnalysis)
    (hmc : b1.market_cap = b2.market_cap) :
    identify_project_needs b1 s t m c1 = identify_project_needs b2 s t m c2 := by
  unfold identify_project_needs has_professional_branding
  rw [hmc]

def basicOther : BasicInfo :=
  { name := "other", description := "different glue fields", website := "https://x",
    market_cap := MarketCapField.val 5000000 }

def communityOther : CommunityAnalysis :=
  { community_sentiment := "positive", community_score := 90, issues := ["spam"] }

/-- Witness for the amended C5: two inputs differing only in ignored fields
produce identical outputs. -/
theorem needs_determined_by_analyses_witness :
    identify_project_needs sampleBasicInfo socialMissingTwitter techStrong
        teamStrong sampleCommunity =
      identify_project_needs basicOther socialMissingTwitter techStrong
        teamStrong communityOther :=
  needs_determined_by_analyses sampleBasicInfo basicOther socialMissingTwitter
    techStrong teamStrong sampleCommunity communityOther rfl

/-- C8: the overall maturity label is the bucketed arithmetic mean of the
social, technical and team scores: below 40 early, at least 40 and below 70
developing, at least 70 mature. -/
theorem maturity_is_bucketed_average (b : BasicInfo) (s : SocialAnalysis)
    (t : TechnicalAnalysis) (m : TeamAnalysis) (c : CommunityAnalysis)
    (mc : ℚ) (h : market_cap_lookup b.market_cap = some mc) :
    (identify_project_needs b s t m c).map ProjectNeeds.overall_maturity =
      Except.ok
        (if ((s.overall_score + t.technical_score + m.team_score : Int) : ℚ) / 3 < 40
          then ("early")
          else if ((s.overall_score + t.technical_score + m.team_score : Int) : ℚ) / 3 < 70
          then ("developing") else ("mature")) := by
  unfold identify_project_needs
  rw [h]
  rfl

def social45 : SocialAnalysis :=
  { twitter_present := true, twitter_followers := 0, telegram_present := false,
    telegram_members := 0, discord_present := false, discord_members := 0,
    overall_score := 45, missing_platforms := ["telegram"] }

def tech55 : TechnicalAnalysis :=
  { github_present := true, whitepaper_present := false, contracts_deployed := false,
    contracts_audited := false, technical_score := 55, missing_elements := ["whitepaper"] }

def team30 : TeamAnalysis :=
  { transparency := "low", linkedin_profiles := 2, public_backgrounds := 0,
    team_score := 30, missing_elements := [] }

/-- Witness for C8 at the spec example scores 45, 55, 30 (mean 43.33): the
label is developing. -/
theorem maturity_is_bucketed_average_witness :
    (identify_project_needs sampleBasicInfo social45 tech55 team30
      sampleCommunity).map ProjectNeeds.overall_maturity =
      Except.ok ("developing") := by
  have h := maturity_is_bucketed_average sampleBasicInfo social45 tech55 team30
    sampleCommunity 5000000 rfl
  rw [h]
  norm_num [social45, tech55, team30]

/-- C9: whenever the looked-up market cap is below the fixed 10,000,000
threshold, the derived job-opportunity list contains exactly one
business-development opportunity, and its urgency is medium. -/
theorem business_dev_below_threshold (b : BasicInfo) (s : SocialAnalysis)
    (t : TechnicalAnalysis) (m : TeamAnalysis) (c : CommunityAnalysis)
    (mc : ℚ) (h : market_cap_lookup b.market_cap = some mc)
    (hlt : mc < 10000000) :
    (identify_project_needs b s t m c).map
      (fun p => (p.job_opportunities.filter
        (fun o => o.category == JobCategory.BUSINESS_DEVELOPMENT)).map
        JobOpportunity.urgency) = Except.ok ["medium"] := by
  unfold identify_project_needs
  rw [h]
  simp only [Except.map]
  rw [if_pos hlt]
  split_ifs <;> rfl

/-- Witness for C9 at the spec example market cap of 5,000,000 dollars. -/
theorem business_dev_below_threshold_witness :
    (identify_project_needs sampleBasicInfo socialMissingTwitter techStrong
      teamStrong sampleCommunity).map
      (fun p => (p.job_opportunities.filter
        (fun o => o.category == JobCategory.BUSINESS_DEVELOPMENT)).map
        JobOpportunity.urgency) = Except.ok ["medium"] :=
  business_dev_below_threshold sampleBasicInfo socialMissingTwitter techStrong
    teamStrong sampleCommunity 5000000 rfl (by norm_num)

/-- src/main.py lines 872-877 (enum CommunitySize). -/
inductive CommunitySize where
  | MICRO
  | SMALL
  | MEDIUM_SMALL
  | MEDIUM
  | GROWING
deriving DecidableEq

/-- The .value string of each CommunitySize member. -/
def community_size_value : CommunitySize → String
  | CommunitySize.MICRO => "1-30"
  | CommunitySize.SMALL => "31-50"
  | CommunitySize.MEDIUM_SMALL => "51-100"
  | CommunitySize.MEDIUM => "101-200"
  | CommunitySize.GROWING => "201-500"

/-- src/main.py lines 1172-1185 (TelegramScout.matches_size_filter): the
loop with the five-way elif chain per filter. -/
def matches_size_filter (member_count : Int) : List CommunitySize → Bool
  | [] => false
  | size_filter :: rest =>
    if size_filter = CommunitySize.MICRO ∧ 1 ≤ member_count ∧ member_count ≤ 30 then
      true
    else if size_filter = CommunitySize.SMALL ∧ 31 ≤ member_count ∧
        member_count ≤ 50 then true
    else if size_filter = CommunitySize.MEDIUM_SMALL ∧ 51 ≤ member_count ∧
        member_count ≤ 100 then true
    else if size_filter = CommunitySize.MEDIUM ∧ 101 ≤ member_count ∧
        member_count ≤ 200 then true
    else if size_filter = CommunitySize.GROWING ∧ 201 ≤ member_count ∧
        member_count ≤ 500 then true
    else matches_size_filter member_count rest

/-- src/main.py lines 1040-1054 (search_crypto_communities): a candidate
community is surfaced only if matches_size_filter accepts its member count. -/
def size_filtered_communities (candidates : List TelegramCommunityInfo)
    (size_filters : List CommunitySize) : List TelegramCommunityInfo :=
  candidates.filter (fun ci => matches_size_filter ci.member_count size_filters)

theorem matches_size_filter_bounds (member_count : Int)
    (size_filters : List CommunitySize)
    (h : matches_size_filter member_count size_filters = true) :
    1 ≤ member_count ∧ member_count ≤ 500 := by
  induction size_filters with
  | nil => exact absurd h (by simp [matches_size_filter])
  | cons f rest ih =>
    unfold matches_size_filter at h
    split_ifs at h with h1 h2 h3 h4 h5
    · omega
    · omega
    · omega
    · omega
    · omega
    · exact ih h

/-- C10: matches_size_filter accepts only member counts between 1 and 500,
so a community reporting 0 members or more than 500 never matches any
filter list and is never surfaced by the size-filtered community search. -/
theorem size_filter_requires_1_to_500 (member_count : Int)
    (size_filters : List CommunitySize)
    (candidates : List TelegramCommunityInfo) (ci : TelegramCommunityInfo) :
    (matches_size_filter member_count size_filters = true →
      1 ≤ member_count ∧ member_count ≤ 500) ∧
    matches_size_filter 0 size_filters = false ∧
    (500 < member_count → matches_size_filter member_count size_filters = false) ∧
    (ci ∈ size_filtered_communities candidates size_filters →
      1 ≤ ci.member_count ∧ ci.member_count ≤ 500) := by
  refine ⟨matches_size_filter_bounds member_count size_filters, ?_, ?_, ?_⟩
  · by_contra hne
    have h0 := matches_size_filter_bounds 0 size_filters (by
      cases hh : matches_size_filter 0 size_filters
      · exact absurd hh hne
      · rfl)
    omega
  · intro hgt
    by_contra hne
    have hb := matches_size_filter_bounds member_count size_filters (by
      cases hh : matches_size_filter member_count size_filters
      · exact absurd hh hne
      · rfl)
    omega
  · intro hmem
    have := List.mem_filter.mp hmem
    exact matches_size_filter_bounds ci.member_count size_filters this.2

/-- Witness for C10 at a concrete in-range member count and filter list. -/
theorem size_filter_requires_1_to_500_witness :
    (1 : Int) ≤ 120 ∧ (120 : Int) ≤ 500 :=
  (size_filter_requires_1_to_500 120 [CommunitySize.MEDIUM] [] emptyCommunityInfo).1
    (by decide)

/-- src/main.py lines 939-948 (dataclass ProjectAnalysis). -/
structure ProjectAnalysis where
  legitimacy_score : ℚ
  scam_indicators : List String
  positive_indicators : List String
  risk_level : ScamRisk
  tokenomics_analysis : Option String
  roadmap_quality : Option String
  team_analysis : Option String
  sentiment_score : ℚ
deriving DecidableEq

/-- src/main.py lines 950-956 (dataclass CommunityAlert); the discovery
timestamp is carried as an abstract epoch number. -/
structure CommunityAlert where
  community_info : TelegramCommunityInfo
  project_analysis : ProjectAnalysis
  discovery_timestamp : Int
  unique_id : String
  size_category : CommunitySize
deriving DecidableEq

/-- A subscriber preference record as read by should_send_community_to_user
via getattr with defaults (src/main.py lines 2230 and 2235): none models a
record lacking the attribute. -/
structure UserPreferences where
  telegram_communities : Option Bool
  community_size_filters : Option (List String)
deriving DecidableEq

/-- src/main.py lines 2227-2244 (EnhancedTelegramBot.should_send_community_to_user). -/
def should_send_community_to_user (alert : CommunityAlert)
    (prefs : UserPreferences) : Bool :=
  let telegram_enabled := prefs.telegram_communities.getD true
  if telegram_enabled = false then false
  else
    let community_filters := prefs.community_size_filters.getD []
    if community_filters ≠ [] ∧
        community_size_value alert.size_category ∉ community_filters then false
    else if alert.project_analysis.risk_level = ScamRisk.CRITICAL then false
    else true

/-- The Python guard `if prefs and self.should_send_community_to_user(alert, prefs)`
(src/main.py line 2255): a missing preference record blocks the dispatch. -/
def dispatch_decision (alert : CommunityAlert)
    (prefs_opt : Option UserPreferences) : Bool :=
  match prefs_opt with
  | some prefs => should_send_community_to_user alert prefs
  | none => false

/-- src/main.py lines 2246-2263 (EnhancedTelegramBot.broadcast_community_alerts),
as the list of (alert, chat_id) dispatches performed. -/
def broadcast_community_alerts (alerts : List CommunityAlert)
    (subscribers : List Int)
    (get_user_preferences : Int → Option UserPreferences) :
    List (CommunityAlert × Int) :=
  alerts.flatMap (fun alert =>
    (subscribers.filter (fun chat_id =>
      dispatch_decision alert (get_user_preferences chat_id))).map
      (fun chat_id => (alert, chat_id)))

/-- C6: a CRITICAL-risk alert is rejected by should_send_community_to_user
for every preference record, and is therefore never dispatched to any
subscriber by broadcast_community_alerts. -/
theorem critical_alerts_never_dispatched (alert : CommunityAlert)
    (prefs : UserPreferences) (alerts : List CommunityAlert)
    (subscribers : List Int)
    (get_user_preferences : Int → Option UserPreferences) (chat_id : Int)
    (h : alert.project_analysis.risk_level = ScamRisk.CRITICAL) :
    should_send_community_to_user alert prefs = false ∧
    (alert, chat_id) ∉ broadcast_community_alerts alerts subscribers
      get_user_preferences := by
  have hfalse : ∀ p, should_send_community_to_user alert p = false := by
    intro p
    unfold should_send_community_to_user
    simp [h]
  refine ⟨hfalse prefs, fun hmem => ?_⟩
  simp only [broadcast_community_alerts, List.mem_flatMap, List.mem_map,
    List.mem_filter] at hmem
  obtain ⟨a, -, c, ⟨-, hdec⟩, hpair⟩ := hmem
  have ha : a = alert := congrArg Prod.fst hpair
  rw [ha] at hdec
  cases hg : get_user_preferences c with
  | none =>
      rw [hg] at hdec
      exact Bool.noConfusion hdec
  | some p =>
      rw [hg] at hdec
      simp only [dispatch_decision, hfalse p] at hdec
      exact Bool.noConfusion hdec

def criticalAnalysis : ProjectAnalysis :=
  { legitimacy_score := 10, scam_indicators := ["HIGH RISK: urgent"],
    positive_indicators := [], risk_level := ScamRisk.CRITICAL,
    tokenomics_analysis := none, roadmap_quality := none,
    team_analysis := none, sentiment_score := 0 }

def criticalAlert : CommunityAlert :=
  { community_info := emptyCommunityInfo, project_analysis := criticalAnalysis,
    discovery_timestamp := 0, unique_id := "abc123",
    size_category := CommunitySize.MICRO }

def defaultPrefs : UserPreferences :=
  { telegram_communities := none, community_size_filters := none }

/-- Witness for C6 at a concrete critical alert and subscriber. -/
theorem critical_alerts_never_dispatched_witness :
    should_send_community_to_user criticalAlert defaultPrefs = false ∧
    (criticalAlert, 7) ∉ broadcast_community_alerts [criticalAlert] [7]
      (fun _ => some defaultPrefs) :=
  critical_alerts_never_dispatched criticalAlert defaultPrefs [criticalAlert]
    [7] (fun _ => some defaultPrefs) 7 rfl

/-- A row of the telegram_communities table (src/main.py lines 1520-1542);
the autoincrement id column is omitted, unique_id carries the UNIQUE
constraint and sent defaults to FALSE. -/
structure TelegramCommunityRow where
  unique_id : String
  title : String
  username : String
  member_count : Int
  description : String
  admin_count : Int
  creation_date : Option String
  invite_link : Option String
  legitimacy_score : ℚ
  risk_level : String
  scam_indicators : String
  positive_indicators : String
  tokenomics_analysis : Option String
  roadmap_quality : Option String
  team_analysis : Option String
  sentiment_score : ℚ
  discovery_timestamp : String
  sent : Bool
deriving DecidableEq

/-- src/main.py lines 1547-1585 (EnhancedDatabaseManager.add_community_alert):
the INSERT violates the UNIQUE constraint on unique_id when a row with the
same unique_id is already stored; the sqlite3.IntegrityError is caught, the
transaction is not committed and False is returned; otherwise the row is
appended with sent at its FALSE default and True is returned. -/
def add_community_alert (db : List TelegramCommunityRow)
    (row : TelegramCommunityRow) : List TelegramCommunityRow × Bool :=
  if db.any (fun r => r.unique_id == row.unique_id) then (db, false)
  else (db ++ [{ row with sent := false }], true)

/-- C7: inserting an alert whose unique_id is already stored returns false
and leaves the stored records unchanged, while a first-time insert appends
the row and returns true. -/
theorem duplicate_insert_is_noop (db : List TelegramCommunityRow)
    (row : TelegramCommunityRow) :
    ((∃ r ∈ db, r.unique_id = row.unique_id) →
      add_community_alert db row = (db, false)) ∧
    ((∀ r ∈ db, r.unique_id ≠ row.unique_id) →
      add_community_alert db row = (db ++ [{ row with sent := false }], true)) := by
  constructor
  · rintro ⟨r, hr, he⟩
    unfold add_community_alert
    rw [if_pos]
    exact List.any_eq_true.mpr ⟨r, hr, by simp [he]⟩
  · intro hall
    unfold add_community_alert
    rw [if_neg]
    simp only [List.any_eq_true, not_exists]
    intro r
    rintro ⟨hr, hbeq⟩
    exact hall r hr (by simpa using hbeq)

def sampleRow : TelegramCommunityRow :=
  { unique_id := "id1", title := "A", username := "a", member_count := 10,
    description := "", admin_count := 1, creation_date := none,
    invite_link := none, legitimacy_score := 50, risk_level := "medium",
    scam_indicators := "[]", positive_indicators := "[]",
    tokenomics_analysis := none, roadmap_quality := none, team_analysis := none,
    sentiment_score := 0, discovery_timestamp := "2024-01-01T00:00:00",
    sent := false }

def sampleRowDup : TelegramCommunityRow := { sampleRow with title := "B" }

/-- Witness for C7: a fresh insert appends and returns true; re-inserting a
row with the same unique_id returns false and leaves the store unchanged. -/
theorem duplicate_insert_is_noop_witness :
    add_community_alert [] sampleRow =
      ([] ++ [{ sampleRow with sent := false }], true) ∧
    add_community_alert [sampleRow] sampleRowDup = ([sampleRow], false) :=
  ⟨(duplicate_insert_is_noop [] sampleRow).2 (by simp),
   (duplicate_insert_is_noop [sampleRow] sampleRowDup).1
     ⟨sampleRow, by simp, rfl⟩⟩
